import Mathlib

/-!
Verification of `systemd-gen.py` (repository `lov3b/systemd-gen`).

The program is modelled by a shallow embedding:
  * the two template renderers `create_service_file` and `create_timer_file`
    are translated directly from the Python f-strings;
  * the filesystem is an explicit state (`FS`): a partial map from file
    paths to contents plus a directory-existence predicate;
  * `main` is translated into `run`, a pure function producing the ordered
    list of effects (`Ev`: directory creation, file writes, printed lines)
    and an exit code.  `os.path.expanduser("~")` is abstracted by a `home`
    string and `os.path.realpath` by an abstract function `rp`;
  * the spec discusses a "simulated write failure" of the service file,
    which the defensive existence check on line 153 of the source guards
    against; the Boolean `wok` models whether that single write took
    effect (the source itself never handles the failure, so a failed write
    is modelled as leaving the filesystem unchanged);
  * the `argparse` layer (class `Args`) is modelled by `parse_args` over
    the list of supplied (flag, value) pairs, reproducing the required /
    optional / default declarations of lines 102-130 and argparse's
    behaviour on missing required options (error naming the flags,
    exit code 2, before any file access).
-/

/-- The renderer of the service-unit body, translated from
`create_service_file` (source lines 8-23).  In the Python source
`description` has the default value `"My custom service"`; that default is
recorded separately in `create_service_file_default_description` because
`main` always passes an explicit description. -/
def create_service_file (working_dir : String) (command : String)
    (description : String) : String :=
  "[Unit]\nDescription=" ++ description ++ "\nAfter=network.target\n\n[Service]\nType=simple\nWorkingDirectory=" ++ working_dir ++ "\nExecStart=" ++ command ++ "\nRestart=on-failure\n\n[Install]\nWantedBy=default.target\n"

/-- The default value of the `description` parameter of
`create_service_file` in the source (line 9).  `main` never relies on it:
it always passes `args.description`, whose CLI default is
`"A custom systemd service"` (line 128). -/
def create_service_file_default_description : String := "My custom service"

/-- The renderer of the timer-unit body, translated from
`create_timer_file` (source lines 26-36). -/
def create_timer_file (name : String) (on_calendar : String) : String :=
  "[Unit]\nDescription=Timer for " ++ name ++ " service\n\n[Timer]\nOnCalendar=" ++ on_calendar ++ "\nPersistent=true\n\n[Install]\nWantedBy=timers.target\n"

/-- Filesystem state: file contents (a partial map from absolute path to
content string) and which directories exist. -/
structure FS where
  files : String → Option String
  dirs : String → Bool

/-- `save_file` (source lines 39-41): open in mode "w" truncates and
writes, so the previous content at that path is wholly replaced. -/
def save_file (content : String) (filename : String) (fs : FS) : FS :=
  { fs with files := fun p => if p = filename then some content else fs.files p }

/-- `os.makedirs(d, exist_ok=True)` (source line 144): ensures the
directory exists; idempotent. -/
def makedirs (d : String) (fs : FS) : FS :=
  { fs with dirs := fun p => if p = d then true else fs.dirs p }

/-- Observable effects of a run, in order: directory creation, a file
write, a printed line. -/
inductive Ev where
  | mkdir (d : String)
  | write (path : String) (content : String)
  | print (line : String)
deriving DecidableEq, Repr

/-- Applying one effect to the filesystem (printing leaves it unchanged). -/
def apply_ev (fs : FS) : Ev → FS
  | .mkdir d => makedirs d fs
  | .write p c => save_file c p fs
  | .print _ => fs

/-- The per-user unit directory `~/.config/systemd/user`, i.e.
`os.path.dirname(service_filename)` on source line 144. -/
def user_dir (home : String) : String := home ++ "/.config/systemd/user"

/-- `os.path.expanduser("~/.config/systemd/user/" + name + ".service")`
(source line 143). -/
def service_path (home : String) (name : String) : String :=
  home ++ "/.config/systemd/user/" ++ name ++ ".service"

/-- `os.path.expanduser("~/.config/systemd/user/" + name + ".timer")`
(source line 159). -/
def timer_path (home : String) (name : String) : String :=
  home ++ "/.config/systemd/user/" ++ name ++ ".timer"

/-- The validated Generation Request, translated from class `Args`
(source lines 89-94): `timer` is `None` when the timer flag is absent. -/
structure Args where
  name : String
  working_dir : String
  command : String
  timer : Option String
  description : String
deriving DecidableEq, Repr

/-- Python truthiness of `args.timer` as tested by `if args.timer:`
(source line 152): `None` and the empty string are both falsy. -/
def truthy : Option String → Bool
  | none => false
  | some s => decide (s ≠ "")

/-- Result of a run: the ordered effects and the process exit code. -/
structure RunResult where
  events : List Ev
  exitCode : Nat
deriving Repr

/-- The body of `main` after argument parsing (source lines 143-162),
relative to an initial filesystem `fs0`.  `home` stands for
`os.path.expanduser("~")`, `rp` for `os.path.realpath`, and `wok` for
whether the write of the service file took effect (the spec's "simulated
write failure"; `save_file` in the source does not itself detect failure,
hence the defensive `os.path.exists` check on line 153). -/
def run (home : String) (rp : String → String) (a : Args) (wok : Bool)
    (fs0 : FS) : RunResult :=
  let service_filename := service_path home a.name
  let service_content :=
    create_service_file (rp a.working_dir) a.command a.description
  let evs1 : List Ev :=
    [Ev.mkdir (user_dir home)]
      ++ (if wok then [Ev.write service_filename service_content] else [])
      ++ [Ev.print ("Service file saved to " ++ service_filename)]
  let fs1 := evs1.foldl apply_ev fs0
  if truthy a.timer then
    if (fs1.files service_filename).isNone then
      { events := evs1 ++ [Ev.print ("Error: Service file " ++ a.name ++ ".service does not exist. Please create the service first.")],
        exitCode := 0 }
    else
      { events := evs1
          ++ [Ev.write (timer_path home a.name)
                (create_timer_file a.name (a.timer.getD "")),
              Ev.print ("Timer file saved to " ++ timer_path home a.name)],
        exitCode := 0 }
  else
    { events := evs1, exitCode := 0 }

/-- The filesystem after a run: the initial state with all effects
applied in order. -/
def final_fs (home : String) (rp : String → String) (a : Args) (wok : Bool)
    (fs0 : FS) : FS :=
  (run home rp a wok fs0).events.foldl apply_ev fs0

/-- The lines printed by a run, in order. -/
def output (home : String) (rp : String → String) (a : Args) (wok : Bool)
    (fs0 : FS) : List String :=
  (run home rp a wok fs0).events.filterMap fun e =>
    match e with
    | .print s => some s
    | _ => none

/-- The empty filesystem: no files, no directories. -/
def fs_empty : FS :=
  { files := fun _ => none, dirs := fun _ => false }

/-- Look up an option by its short or long flag among the supplied
(flag, value) pairs; `none` when the flag was not supplied. -/
def getFlag (supplied : List (String × String)) (short long : String) :
    Option String :=
  (supplied.find? fun p => p.1 == short || p.1 == long).map Prod.snd

/-- The required flags (source lines 102-119, all declared with
required=True) that are missing from the command line, in declaration
order, each written the way argparse names it in its error message. -/
def missing_required (supplied : List (String × String)) : List String :=
  (if (getFlag supplied "-n" "--name").isNone then ["-n/--name"] else [])
    ++ (if (getFlag supplied "-w" "--working-dir").isNone
        then ["-w/--working-dir"] else [])
    ++ (if (getFlag supplied "-c" "--command").isNone
        then ["-c/--command"] else [])

/-- argparse's error line when required arguments are missing, naming each
missing flag. -/
def required_error (supplied : List (String × String)) : String :=
  "error: the following arguments are required: "
    ++ String.intercalate ", " (missing_required supplied)

/-- The argparse layer of class `Args` (source lines 96-137): three
required options, optional `timer` with no default (absent means `None`),
and `description` defaulting to "A custom systemd service" (line 128).
On missing required options argparse reports them and exits with code 2
before `main` performs any filesystem operation. -/
def parse_args (supplied : List (String × String)) : Except String Args :=
  if missing_required supplied = [] then
    .ok { name := (getFlag supplied "-n" "--name").getD "",
          working_dir := (getFlag supplied "-w" "--working-dir").getD "",
          command := (getFlag supplied "-c" "--command").getD "",
          timer := getFlag supplied "-t" "--timer",
          description := (getFlag supplied "-d" "--description").getD
            "A custom systemd service" }
  else
    .error (required_error supplied)

/-- The whole process (source lines 140-162): parse the command line, then
run the body of `main`.  A parse failure prints the argparse error and
exits with code 2, with no filesystem effect. -/
def main_run (home : String) (rp : String → String)
    (supplied : List (String × String)) (wok : Bool) (fs0 : FS) : RunResult :=
  match parse_args supplied with
  | .error e => { events := [Ev.print e], exitCode := 2 }
  | .ok a => run home rp a wok fs0

/-- The service-file template exactly as printed in the spec (section 4.2),
one line per list entry, with a trailing newline; this definition follows
the spec's words, to be compared with `create_service_file`. -/
def spec_service_body (description : String) (working_dir : String)
    (command : String) : String :=
  String.intercalate "\n"
    ["[Unit]",
     "Description=" ++ description,
     "After=network.target",
     "",
     "[Service]",
     "Type=simple",
     "WorkingDirectory=" ++ working_dir,
     "ExecStart=" ++ command,
     "Restart=on-failure",
     "",
     "[Install]",
     "WantedBy=default.target"] ++ "\n"

/-- The timer-file template exactly as printed in the spec (section 4.2);
this definition follows the spec's words, to be compared with
`create_timer_file`. -/
def spec_timer_body (name : String) (timer_spec : String) : String :=
  String.intercalate "\n"
    ["[Unit]",
     "Description=Timer for " ++ name ++ " service",
     "",
     "[Timer]",
     "OnCalendar=" ++ timer_spec,
     "Persistent=true",
     "",
     "[Install]",
     "WantedBy=timers.target"] ++ "\n"

/-- Helper: the source renderer agrees with the spec's service template
for all field values. -/
theorem create_service_eq_spec (working_dir command description : String) :
    create_service_file working_dir command description
      = spec_service_body description working_dir command := by
  simp [create_service_file, spec_service_body, String.intercalate,
    String.intercalate.go, String.ext_iff, String.data_append]

/-- Helper: the source renderer agrees with the spec's timer template
for all field values. -/
theorem create_timer_eq_spec (name timer_spec : String) :
    create_timer_file name timer_spec = spec_timer_body name timer_spec := by
  simp [create_timer_file, spec_timer_body, String.intercalate,
    String.intercalate.go, String.ext_iff, String.data_append]

/-- Helper: a service path and a timer path never collide (the
extensions differ, so the lengths differ). -/
theorem service_path_ne_timer_path (home name home2 name2 : String)
    (hh : home.length = home2.length) (hn : name.length = name2.length) :
    service_path home name ≠ timer_path home2 name2 := by
  intro h
  have h2 := congrArg String.length h
  simp only [service_path, timer_path, String.length_append] at h2
  have l1 : String.length "/.config/systemd/user/" = 22 := by decide
  have l2 : String.length ".service" = 8 := by decide
  have l3 : String.length ".timer" = 6 := by decide
  omega

/-- C1: For every valid Generation Request, the rendered service-file body
is exactly the spec's template — sections and keys in the stated order —
with the description, working_dir and command values interpolated
verbatim, with no escaping, quoting or line-wrapping, even for values
containing newlines or the character `=`. -/
theorem service_body_matches_spec_template (working_dir command description : String) :
    create_service_file working_dir command description
      = spec_service_body description working_dir command :=
  create_service_eq_spec working_dir command description

/-- Helper: when the service write succeeds, the final filesystem holds the
rendered service body at the service path, whatever the timer option. -/
theorem final_fs_service_wok (home : String) (rp : String → String) (a : Args)
    (fs0 : FS) :
    (final_fs home rp a true fs0).files (service_path home a.name)
      = some (create_service_file (rp a.working_dir) a.command a.description) := by
  have hne : service_path home a.name ≠ timer_path home a.name :=
    service_path_ne_timer_path home a.name home a.name rfl rfl
  by_cases h : truthy a.timer
  · simp [final_fs, run, h, apply_ev, save_file, makedirs, hne]
  · simp [final_fs, run, h, apply_ev, save_file, makedirs]

/-- Helper: when the service write succeeds and the timer option is a
non-empty string, the final filesystem holds the rendered timer body at
the timer path. -/
theorem final_fs_timer_wok (home : String) (rp : String → String) (a : Args)
    (fs0 : FS) (t : String) (ht : a.timer = some t) (ht2 : t ≠ "") :
    (final_fs home rp a true fs0).files (timer_path home a.name)
      = some (create_timer_file a.name t) := by
  simp [final_fs, run, truthy, ht, ht2, apply_ev, save_file, makedirs]

/-- C2: for every input working_dir, the WorkingDirectory value written
into the service file is the image of the input under `os.path.realpath`
(modelled by `rp`), hence canonical whenever `rp` canonicalizes; the
description and command fields are the raw inputs, so working_dir is the
only field whose written value may differ from the raw input. -/
theorem working_dir_written_canonical (IsCanonical : String → Prop)
    (rp : String → String) (hrp : ∀ p, IsCanonical (rp p))
    (home : String) (a : Args) (fs0 : FS) :
    IsCanonical (rp a.working_dir) ∧
      (final_fs home rp a true fs0).files (service_path home a.name)
        = some (spec_service_body a.description (rp a.working_dir) a.command) :=
  ⟨hrp a.working_dir, by
    rw [final_fs_service_wok, create_service_eq_spec]⟩

/-- Witness for C2 at a concrete input. -/
theorem working_dir_written_canonical_witness :
    ("/srv/app" : String) = "/srv/app" ∧
      (final_fs "/home/u" (fun _ => "/srv/app")
          (Args.mk "foo" "work" "/usr/bin/echo hi" none "A custom systemd service")
          true fs_empty).files (service_path "/home/u" "foo")
        = some (spec_service_body "A custom systemd service" "/srv/app"
            "/usr/bin/echo hi") :=
  working_dir_written_canonical (fun s => s = "/srv/app") (fun _ => "/srv/app")
    (fun _ => rfl) "/home/u"
    (Args.mk "foo" "work" "/usr/bin/echo hi" none "A custom systemd service")
    fs_empty

/-- C7: when the timer flag is absent the run's effects are exactly the
three service-file effects — no timer file is created or referenced — so
the filesystem afterwards holds the new service file and is unchanged at
the timer path. -/
theorem timer_absent_no_timer_file (home : String) (rp : String → String)
    (a : Args) (fs0 : FS) (h : a.timer = none) :
    (run home rp a true fs0).events
      = [Ev.mkdir (user_dir home),
         Ev.write (service_path home a.name)
           (create_service_file (rp a.working_dir) a.command a.description),
         Ev.print ("Service file saved to " ++ service_path home a.name)] ∧
      (final_fs home rp a true fs0).files (timer_path home a.name)
        = fs0.files (timer_path home a.name) ∧
      (final_fs home rp a true fs0).files (service_path home a.name)
        = some (create_service_file (rp a.working_dir) a.command a.description) := by
  have hne : service_path home a.name ≠ timer_path home a.name :=
    service_path_ne_timer_path home a.name home a.name rfl rfl
  have hne2 := Ne.symm hne
  refine ⟨?_, ?_, final_fs_service_wok home rp a fs0⟩
  · simp [run, h, truthy]
  · simp [final_fs, run, h, truthy, apply_ev, save_file, makedirs, hne2]

/-- Witness for C7 at a concrete input. -/
theorem timer_absent_no_timer_file_witness :
    (run "/home/u" (fun s => s)
        (Args.mk "foo" "/w" "/bin/c" none "desc") true fs_empty).events
      = [Ev.mkdir (user_dir "/home/u"),
         Ev.write (service_path "/home/u" "foo")
           (create_service_file "/w" "/bin/c" "desc"),
         Ev.print ("Service file saved to " ++ service_path "/home/u" "foo")] ∧
      (final_fs "/home/u" (fun s => s)
          (Args.mk "foo" "/w" "/bin/c" none "desc") true fs_empty).files
          (timer_path "/home/u" "foo")
        = fs_empty.files (timer_path "/home/u" "foo") ∧
      (final_fs "/home/u" (fun s => s)
          (Args.mk "foo" "/w" "/bin/c" none "desc") true fs_empty).files
          (service_path "/home/u" "foo")
        = some (create_service_file "/w" "/bin/c" "desc") :=
  timer_absent_no_timer_file "/home/u" (fun s => s)
    (Args.mk "foo" "/w" "/bin/c" none "desc") fs_empty rfl

/-- C5: state-machine invariant — whenever a run's ordered effect sequence
contains a write of the timer file for the run's name, the service file
for that same name exists in the filesystem state reached just before that
write (either freshly written earlier in the same run, or pre-existing
from a prior run). -/
theorem timer_write_requires_service (home : String) (rp : String → String)
    (a : Args) (wok : Bool) (fs0 : FS) (pre post : List Ev) (c : String)
    (h : (run home rp a wok fs0).events
          = pre ++ Ev.write (timer_path home a.name) c :: post) :
    ((pre.foldl apply_ev fs0).files (service_path home a.name)).isSome := by
  have hne : service_path home a.name ≠ timer_path home a.name :=
    service_path_ne_timer_path home a.name home a.name rfl rfl
  by_cases ht : truthy a.timer
  · by_cases hw : wok
    · simp [run, ht, hw, apply_ev, save_file, makedirs] at h
      rcases pre with _ | ⟨e1, _ | ⟨e2, _ | ⟨e3, _ | ⟨e4, _ | ⟨e5, pre5⟩⟩⟩⟩⟩ <;>
        simp [hne] at h
      obtain ⟨h1, h2, h3, ⟨h4, h5⟩, h6⟩ := h
      subst h1; subst h2; subst h3
      simp [apply_ev, save_file, makedirs]
    · by_cases hex : (fs0.files (service_path home a.name)).isNone
      · simp [run, ht, hw, apply_ev, save_file, makedirs, hex] at h
        rcases pre with _ | ⟨e1, _ | ⟨e2, _ | ⟨e3, pre3⟩⟩⟩ <;> simp at h
      · simp [run, ht, hw, apply_ev, save_file, makedirs, hex] at h
        rcases pre with _ | ⟨e1, _ | ⟨e2, _ | ⟨e3, _ | ⟨e4, pre4⟩⟩⟩⟩ <;>
          simp [hne] at h
        obtain ⟨h1, h2, ⟨h3, h4⟩, h5⟩ := h
        subst h1; subst h2
        simp [apply_ev, makedirs]
        cases hfs : fs0.files (service_path home a.name) with
        | none => rw [hfs] at hex; simp at hex
        | some v => simp
  · by_cases hw : wok <;> simp [run, ht, hw] at h <;>
      rcases pre with _ | ⟨e1, _ | ⟨e2, _ | ⟨e3, pre3⟩⟩⟩ <;> simp [hne] at h

/-- Witness for C5 at a concrete input where the timer write occurs. -/
theorem timer_write_requires_service_witness :
    ((run "/h" (fun s => s) (Args.mk "foo" "/w" "/bin/c" (some "daily") "d")
        true fs_empty).events
      = [Ev.mkdir (user_dir "/h"),
         Ev.write (service_path "/h" "foo") (create_service_file "/w" "/bin/c" "d"),
         Ev.print ("Service file saved to " ++ service_path "/h" "foo")]
        ++ Ev.write (timer_path "/h" "foo") (create_timer_file "foo" "daily")
          :: [Ev.print ("Timer file saved to " ++ timer_path "/h" "foo")]) ∧
      (([Ev.mkdir (user_dir "/h"),
         Ev.write (service_path "/h" "foo") (create_service_file "/w" "/bin/c" "d"),
         Ev.print ("Service file saved to " ++ service_path "/h" "foo")].foldl
            apply_ev fs_empty).files (service_path "/h" "foo")).isSome :=
  ⟨rfl,
    timer_write_requires_service "/h" (fun s => s)
      (Args.mk "foo" "/w" "/bin/c" (some "daily") "d") true fs_empty
      [Ev.mkdir (user_dir "/h"),
       Ev.write (service_path "/h" "foo") (create_service_file "/w" "/bin/c" "d"),
       Ev.print ("Service file saved to " ++ service_path "/h" "foo")]
      [Ev.print ("Timer file saved to " ++ timer_path "/h" "foo")]
      (create_timer_file "foo" "daily") rfl⟩

/-- C4: when the timer flag is present (non-empty) but the service file is
absent at the post-write check (write failed and no pre-existing file),
the run prints the error naming the service, writes no timer file, and
still exits with code 0. -/
theorem timer_skip_branch_nonfatal (home : String) (rp : String → String)
    (a : Args) (fs0 : FS) (t : String) (ht : a.timer = some t) (ht2 : t ≠ "")
    (hmiss : fs0.files (service_path home a.name) = none) :
    (run home rp a false fs0).exitCode = 0 ∧
      Ev.print ("Error: Service file " ++ a.name
          ++ ".service does not exist. Please create the service first.")
        ∈ (run home rp a false fs0).events ∧
      (∀ c, Ev.write (timer_path home a.name) c ∉ (run home rp a false fs0).events) ∧
      (final_fs home rp a false fs0).files (timer_path home a.name)
        = fs0.files (timer_path home a.name) := by
  have hev : (run home rp a false fs0).events
      = [Ev.mkdir (user_dir home),
         Ev.print ("Service file saved to " ++ service_path home a.name),
         Ev.print ("Error: Service file " ++ a.name
           ++ ".service does not exist. Please create the service first.")] := by
    simp [run, truthy, ht, ht2, apply_ev, makedirs, hmiss]
  refine ⟨?_, ?_, ?_, ?_⟩
  · simp [run, truthy, ht, ht2, apply_ev, makedirs, hmiss]
  · rw [hev]; simp
  · intro c; rw [hev]; simp
  · simp [final_fs, hev, apply_ev, makedirs]

/-- Witness for C4 at a concrete input. -/
theorem timer_skip_branch_nonfatal_witness :
    (run "/h" (fun s => s) (Args.mk "foo" "/w" "/bin/c" (some "daily") "d")
        false fs_empty).exitCode = 0 ∧
      Ev.print ("Error: Service file " ++ "foo"
          ++ ".service does not exist. Please create the service first.")
        ∈ (run "/h" (fun s => s)
            (Args.mk "foo" "/w" "/bin/c" (some "daily") "d") false fs_empty).events ∧
      (∀ c, Ev.write (timer_path "/h" "foo") c
        ∉ (run "/h" (fun s => s)
            (Args.mk "foo" "/w" "/bin/c" (some "daily") "d") false fs_empty).events) ∧
      (final_fs "/h" (fun s => s) (Args.mk "foo" "/w" "/bin/c" (some "daily") "d")
          false fs_empty).files (timer_path "/h" "foo")
        = fs_empty.files (timer_path "/h" "foo") :=
  timer_skip_branch_nonfatal "/h" (fun s => s)
    (Args.mk "foo" "/w" "/bin/c" (some "daily") "d") fs_empty "daily" rfl
    (by decide) rfl

/-- C3 counterexample: timer_spec present as the empty string and the
service file successfully written, yet no timer file is created — the
claim as stated fails on the code, whose guard tests Python truthiness
rather than presence. -/
theorem timer_present_empty_not_created :
    (Args.mk "foo" "/w" "/bin/c" (some "") "d").timer.isSome = true ∧
      (final_fs "/h" (fun s => s) (Args.mk "foo" "/w" "/bin/c" (some "") "d")
          true fs_empty).files (timer_path "/h" "foo") = none := by
  constructor
  · rfl
  · have hne : timer_path "/h" "foo" ≠ service_path "/h" "foo" :=
      Ne.symm (service_path_ne_timer_path "/h" "foo" "/h" "foo" rfl rfl)
    simp [final_fs, run, truthy, apply_ev, save_file, makedirs, fs_empty, hne]

/-- C3 (amended): for every run where timer_spec is present and non-empty
and the service file was successfully written, a timer file is created
whose body is exactly the spec's timer template — containing the literal
name in its Description line and the literal timer_spec in its OnCalendar
line, plus Persistent=true and WantedBy=timers.target — and the
confirmation line is printed. -/
theorem timer_file_matches_spec_template (home : String) (rp : String → String)
    (a : Args) (fs0 : FS) (t : String) (ht : a.timer = some t) (ht2 : t ≠ "") :
    (final_fs home rp a true fs0).files (timer_path home a.name)
      = some (spec_timer_body a.name t) ∧
      Ev.print ("Timer file saved to " ++ timer_path home a.name)
        ∈ (run home rp a true fs0).events := by
  constructor
  · rw [final_fs_timer_wok home rp a fs0 t ht ht2, create_timer_eq_spec]
  · simp [run, truthy, ht, ht2, apply_ev, save_file, makedirs]

/-- Witness for the amended C3 at a concrete input. -/
theorem timer_file_matches_spec_template_witness :
    (final_fs "/h" (fun s => s)
        (Args.mk "foo" "/w" "/bin/c" (some "*-*-* 14:00:00") "d")
        true fs_empty).files (timer_path "/h" "foo")
      = some (spec_timer_body "foo" "*-*-* 14:00:00") ∧
      Ev.print ("Timer file saved to " ++ timer_path "/h" "foo")
        ∈ (run "/h" (fun s => s)
            (Args.mk "foo" "/w" "/bin/c" (some "*-*-* 14:00:00") "d")
            true fs_empty).events :=
  timer_file_matches_spec_template "/h" (fun s => s)
    (Args.mk "foo" "/w" "/bin/c" (some "*-*-* 14:00:00") "d") fs_empty
    "*-*-* 14:00:00" rfl (by decide)

/-- C6 counterexample: a run supplying the timer flag with the
empty-string value, with the service file existing on disk (both
pre-existing and freshly written), generates no timer file — contrary to
the claim that it is generated exactly as for any other present
timer_spec. -/
theorem empty_timer_no_generation :
    (final_fs "/home/u" (fun s => s)
        (Args.mk "bar" "/srv" "/bin/run" (some "") "A custom systemd service")
        true
        (FS.mk
          (fun p => if p = service_path "/home/u" "bar" then some "old" else none)
          (fun _ => false))).files (timer_path "/home/u" "bar") = none := by
  have hne : timer_path "/home/u" "bar" ≠ service_path "/home/u" "bar" :=
    Ne.symm (service_path_ne_timer_path "/home/u" "bar" "/home/u" "bar" rfl rfl)
  simp [final_fs, run, truthy, apply_ev, save_file, makedirs, hne]

/-- C6 (amended): presence of a truthy timer value is what triggers
timer-file generation: supplying the timer flag with the empty string
behaves exactly like omitting the flag — the guard is Python truthiness,
so the empty string is not distinct from absence and produces no timer
file. -/
theorem empty_timer_behaves_as_absent (home : String) (rp : String → String)
    (n w c d : String) (wok : Bool) (fs0 : FS) :
    run home rp (Args.mk n w c (some "") d) wok fs0
      = run home rp (Args.mk n w c none d) wok fs0 := by
  simp [run, truthy]

/-- Helper: closed form of the file map after a successful run. -/
theorem final_fs_files_wok (home : String) (rp : String → String) (a : Args)
    (fs0 : FS) (p : String) :
    (final_fs home rp a true fs0).files p
      = if truthy a.timer ∧ p = timer_path home a.name then
          some (create_timer_file a.name (a.timer.getD ""))
        else if p = service_path home a.name then
          some (create_service_file (rp a.working_dir) a.command a.description)
        else fs0.files p := by
  by_cases ht : truthy a.timer
  · simp [final_fs, run, ht, apply_ev, save_file, makedirs]
  · simp [final_fs, run, ht, apply_ev, save_file, makedirs]

/-- C8: idempotence — a second run with identical inputs (and identical
resolved working_dir) performs exactly the same effects as the first and
leaves every file unchanged, so both runs produce byte-identical output
files; and `save_file` replaces the previous content at the path in full
(truncate-then-write semantics, not append). -/
theorem run_idempotent (home : String) (rp : String → String) (a : Args)
    (fs0 : FS) :
    run home rp a true (final_fs home rp a true fs0) = run home rp a true fs0 ∧
      (final_fs home rp a true (final_fs home rp a true fs0)).files
        = (final_fs home rp a true fs0).files ∧
      ∀ (fs : FS) (c p : String), (save_file c p fs).files p = some c := by
  refine ⟨?_, ?_, ?_⟩
  · by_cases ht : truthy a.timer <;>
      simp [run, ht, apply_ev, save_file, makedirs]
  · funext p
    rw [final_fs_files_wok, final_fs_files_wok]
    by_cases h1 : truthy a.timer ∧ p = timer_path home a.name <;>
      by_cases h2 : p = service_path home a.name <;> simp [h1, h2]
  · intro fs c p
    simp [save_file]

/-- C9: an invocation missing one or more of the three required flags
prints an error naming the missing flag(s), exits non-zero (argparse's
code 2), and performs no file I/O: its only effect is the printed error,
and the filesystem is left exactly as it was. -/
theorem missing_required_aborts_before_io (home : String) (rp : String → String)
    (supplied : List (String × String)) (wok : Bool) (fs0 : FS)
    (h : missing_required supplied ≠ []) :
    (main_run home rp supplied wok fs0).exitCode = 2 ∧
      (main_run home rp supplied wok fs0).events
        = [Ev.print (required_error supplied)] ∧
      (main_run home rp supplied wok fs0).events.foldl apply_ev fs0 = fs0 := by
  simp [main_run, parse_args, h, apply_ev]

/-- Witness for C9 at a concrete input missing the name and command
flags. -/
theorem missing_required_aborts_before_io_witness :
    (main_run "/h" (fun s => s) [("-w", "/w")] true fs_empty).exitCode = 2 ∧
      (main_run "/h" (fun s => s) [("-w", "/w")] true fs_empty).events
        = [Ev.print (required_error [("-w", "/w")])] ∧
      (main_run "/h" (fun s => s) [("-w", "/w")] true fs_empty).events.foldl
          apply_ev fs_empty = fs_empty :=
  missing_required_aborts_before_io "/h" (fun s => s) [("-w", "/w")] true
    fs_empty (by decide)

/-- C10: noninterference between the two renderers — the written service
body depends only on working_dir, command and description (unchanged
under any variation of name or timer_spec), the written timer body
depends only on name and timer_spec (unchanged under any variation of
working_dir, command or description), and a command line without the
description flag parses to the CLI default "A custom systemd service",
never to the renderer's internal default "My custom service". -/
theorem renderer_noninterference (home : String) (rp : String → String)
    (n1 n2 w1 w2 c1 c2 d1 d2 : String) (t1 t2 : Option String) (t : String)
    (fs1 fs2 : FS) (ht : t ≠ "")
    (supplied : List (String × String)) (a0 : Args)
    (hp : parse_args supplied = Except.ok a0)
    (hd : getFlag supplied "-d" "--description" = none) :
    (final_fs home rp (Args.mk n1 w1 c1 t1 d1) true fs1).files
        (service_path home n1)
      = (final_fs home rp (Args.mk n2 w1 c1 t2 d1) true fs2).files
        (service_path home n2) ∧
    (final_fs home rp (Args.mk n1 w1 c1 (some t) d1) true fs1).files
        (timer_path home n1)
      = (final_fs home rp (Args.mk n1 w2 c2 (some t) d2) true fs2).files
        (timer_path home n1) ∧
    a0.description = "A custom systemd service" ∧
    a0.description ≠ create_service_file_default_description := by
  have hdesc : a0.description = "A custom systemd service" := by
    by_cases hm : missing_required supplied = []
    · simp [parse_args, hm] at hp
      rw [← hp]
      simp [hd]
    · simp [parse_args, hm] at hp
  refine ⟨?_, ?_, hdesc, ?_⟩
  · rw [final_fs_service_wok home rp (Args.mk n1 w1 c1 t1 d1) fs1,
      final_fs_service_wok home rp (Args.mk n2 w1 c1 t2 d1) fs2]
  · rw [final_fs_timer_wok home rp (Args.mk n1 w1 c1 (some t) d1) fs1 t rfl ht,
      final_fs_timer_wok home rp (Args.mk n1 w2 c2 (some t) d2) fs2 t rfl ht]
  · rw [hdesc]
    simp [create_service_file_default_description]

/-- Witness for C10 at concrete inputs. -/
theorem renderer_noninterference_witness :
    (final_fs "/h" (fun s => s) (Args.mk "a" "/w1" "c1" none "dA") true
        fs_empty).files (service_path "/h" "a")
      = (final_fs "/h" (fun s => s) (Args.mk "b" "/w1" "c1" (some "x") "dA") true
          fs_empty).files (service_path "/h" "b") ∧
    (final_fs "/h" (fun s => s) (Args.mk "a" "/w1" "c1" (some "daily") "dA") true
        fs_empty).files (timer_path "/h" "a")
      = (final_fs "/h" (fun s => s) (Args.mk "a" "/w2" "c2" (some "daily") "dB") true
          fs_empty).files (timer_path "/h" "a") ∧
    (Args.mk "x" "/w" "cmd" none "A custom systemd service").description
      = "A custom systemd service" ∧
    (Args.mk "x" "/w" "cmd" none "A custom systemd service").description
      ≠ create_service_file_default_description :=
  renderer_noninterference "/h" (fun s => s) "a" "b" "/w1" "/w2" "c1" "c2"
    "dA" "dB" none (some "x") "daily" fs_empty fs_empty (by decide)
    [("-n", "x"), ("-w", "/w"), ("-c", "cmd")]
    (Args.mk "x" "/w" "cmd" none "A custom systemd service") rfl rfl
